import Mathlib

/-!
# poc_sync_c : relay (`play.c`) and player (`client.c`)

A shallow embedding of the two C programs of the repository.  Calls into
GLib / GStreamer are external: every value such a call hands back to the
program (an element was created or not, a link was accepted or not, the
clock synchronised or timed out, the messages the bus delivers) is an
explicit input of the model, and the calls by which the program acts on the
outside (create, set, link, print, request a state, run or quit the loop)
are recorded, in program order, in a list of `Act`s.  The functions of the
two source files are then ordinary total functions from those inputs to the
recorded calls, the new application state and the exit code.
-/

namespace PocSync

/-! ## Shared vocabulary -/

/-- The two dynamically linked branches of `play.c` (`video_queue`, `audio_queue`). -/
inductive Branch
  | video
  | audio
  deriving DecidableEq, Repr

/-- The values of `GstPadLinkReturn`. -/
inductive GstPadLinkReturn
  | GST_PAD_LINK_OK
  | GST_PAD_LINK_WRONG_HIERARCHY
  | GST_PAD_LINK_WAS_LINKED
  | GST_PAD_LINK_WRONG_DIRECTION
  | GST_PAD_LINK_NOFORMAT
  | GST_PAD_LINK_NOSCHED
  | GST_PAD_LINK_REFUSED
  deriving DecidableEq, Repr

/-- The values of `GstState` the programs request. -/
inductive GstState
  | GST_STATE_NULL
  | GST_STATE_READY
  | GST_STATE_PAUSED
  | GST_STATE_PLAYING
  deriving DecidableEq, Repr

/-- The values of `GstStateChangeReturn`. -/
inductive GstStateChangeReturn
  | GST_STATE_CHANGE_FAILURE
  | GST_STATE_CHANGE_SUCCESS
  | GST_STATE_CHANGE_ASYNC
  | GST_STATE_CHANGE_NO_PREROLL
  deriving DecidableEq, Repr

/-- The elements `setup_pipeline` creates, one per field of `AppData`. -/
inductive Elem
  | filesrc
  | tsdemux
  | video_queue
  | video_parse
  | video_dec
  | video_convert
  | video_sink
  | audio_queue
  | audio_parse
  | audio_dec
  | audio_convert
  | audio_resample
  | audio_enc
  | rtsp_sink
  deriving DecidableEq, Repr

/-- One recorded call of the program into GLib / GStreamer; `g_object_set`
is recorded once per property set. -/
inductive Act
  | gst_init
  | g_print (s : String)
  | g_printerr (s : String)
  | g_main_loop_new
  | g_main_loop_run
  | g_main_loop_quit
  | g_main_loop_unref
  | gst_pad_link (b : Branch)
  | gst_pipeline_new (name : String)
  | gst_element_factory_make (factory name : String)
  | g_object_set (target property value : String)
  | g_object_get (target property : String)
  | gst_bin_add_many (es : List Elem)
  | gst_element_link (a b : Elem)
  | gst_element_link_filtered (a b : Elem) (caps : String)
  | g_signal_connect (target signal handler : String)
  | gst_bus_add_watch
  | gst_system_clock_obtain
  | gst_net_time_provider_new (port : Int)
  | gst_net_client_clock_new (address : String) (port : Int)
  | gst_clock_wait_for_sync (synced : Bool)
  | gst_pipeline_use_clock
  | gst_element_set_state (st : GstState)
  | gst_element_get_state
  | g_object_unref (what : String)
  deriving DecidableEq, Repr

/-- GLib `g_str_has_prefix (str, prefix)`: the bytes of `prefix` are the first
bytes of `str`. -/
def g_str_has_prefix (str pfx : String) : Bool :=
  pfx.data.isPrefixOf str.data

/-- A message taken from the pipeline bus, by `GST_MESSAGE_TYPE`; an error
carries `err->message` and the debug string, which may be `NULL`; an element
message carries the name of its structure. -/
inductive GstMessage
  | GST_MESSAGE_EOS
  | GST_MESSAGE_ERROR (message : String) (debug : Option String)
  | GST_MESSAGE_ELEMENT (name : String)
  | GST_MESSAGE_OTHER
  deriving DecidableEq, Repr

/-- The outcome of a run of `main`: the recorded calls and the value `main`
returns, `none` when `g_main_loop_run` never returns. -/
structure Run where
  trace : List Act
  exit : Option Int
  deriving DecidableEq, Repr

/-- GLib `g_main_loop_run` with one bus watch attached: the messages are
handed to the watch one per iteration, and the loop returns after the
iteration in which `g_main_loop_quit` was called.  The result is the calls
made by the watch and whether the loop returned. -/
def g_main_loop_run (watch : GstMessage → Bool × List Act) :
    List GstMessage → List Act × Bool
  | [] => ([], false)
  | m :: ms =>
    if Act.g_main_loop_quit ∈ (watch m).2 then ((watch m).2, true)
    else ((watch m).2 ++ (g_main_loop_run watch ms).1, (g_main_loop_run watch ms).2)

/-- GStreamer `gst_element_link_many`: links each element to the next with
`gst_element_link` and stops with `FALSE` at the first link that is
rejected. -/
def gst_element_link_many (linked : Elem → Elem → Bool) : List Elem → Bool × List Act
  | a :: b :: rest =>
    if linked a b then
      ((gst_element_link_many linked (b :: rest)).1,
        Act.gst_element_link a b :: (gst_element_link_many linked (b :: rest)).2)
    else (false, [Act.gst_element_link a b])
  | _ => (true, [])

/-- The string `argv[i]`, printed the way GLib prints a `NULL` string when
there is no such argument. -/
def arg (argv : List String) (i : Nat) : String :=
  argv.getD i "(null)"

/-- A recorded call is an error report, a shutdown of the loop or a state
request on the pipeline. -/
def Act.isErrorOrStop : Act → Bool
  | Act.g_printerr _ => true
  | Act.g_main_loop_quit => true
  | Act.gst_element_set_state _ => true
  | _ => false

/-- A recorded call is a `gst_pad_link` on one of the two queues. -/
def Act.isPadLink : Act → Bool
  | Act.gst_pad_link _ => true
  | _ => false

/-- A recorded call is of one of the kinds `setup_pipeline` makes. -/
def Act.isBuildCall : Act → Bool
  | Act.gst_pipeline_new _ => true
  | Act.gst_element_factory_make _ _ => true
  | Act.g_printerr _ => true
  | Act.g_object_set _ _ _ => true
  | Act.gst_bin_add_many _ => true
  | Act.gst_element_link _ _ => true
  | Act.gst_element_link_filtered _ _ _ => true
  | Act.g_signal_connect _ _ _ => true
  | _ => false

end PocSync

/-! ## `play.c` : the relay -/

namespace PocSync.Play

/-- The constant `CLOCK_PORT`. -/
def CLOCK_PORT : Int := 8557

/-- The two fields of `AppData` that `on_pad_added` reads and writes. -/
structure AppData where
  video_linked : Bool
  audio_linked : Bool
  deriving DecidableEq, Repr

/-- What a `pad-added` notification brings with it: the name of the first
structure of the pad's current caps, its `stream-format` field when it has
one, the answer `gst_pad_is_linked` gives for the sink pad of the queue the
callback looks at, and the value `gst_pad_link` returns if it is called. -/
structure PadEvent where
  name : String
  stream_format : Option String
  sink_is_linked : Bool
  link_ret : GstPadLinkReturn
  deriving DecidableEq, Repr

/-- The callback `on_pad_added` of `play.c`: the new flags and the calls made. -/
def on_pad_added (app : AppData) (ev : PadEvent) : AppData × List Act :=
  if ( g_str_has_prefix ev.name "video/x-h264") && !app.video_linked then
    if !ev.sink_is_linked then
      if ev.link_ret = GstPadLinkReturn.GST_PAD_LINK_OK then
        ({ app with video_linked := true },
          [Act.gst_pad_link Branch.video, Act.g_print "<> Video connected\n"])
      else
        (app, [Act.gst_pad_link Branch.video])
    else
      (app, [])
  else if ( g_str_has_prefix ev.name "audio/mpeg") && !app.audio_linked then
    if !ev.sink_is_linked then
      if ev.link_ret = GstPadLinkReturn.GST_PAD_LINK_OK then
        ({ app with audio_linked := true },
          [Act.gst_pad_link Branch.audio,
           Act.g_print ("<> Audio connected (format: "
             ++ ev.stream_format.getD "unknown" ++ ")\n")])
      else
        (app, [Act.gst_pad_link Branch.audio])
    else
      (app, [])
  else
    (app, [])

/-- The helper `MakeElement`: `gst_element_factory_make`, with a report when it yields
no element; `made` is whether the element was created. -/
def MakeElement (made : Bool) (factory name : String) : Bool × List Act :=
  if !made then
    (false, [Act.gst_element_factory_make factory name,
      Act.g_printerr ("Fail to create element " ++ name ++ " (" ++ factory ++ ")\n")])
  else
    (true, [Act.gst_element_factory_make factory name])

/-- The bus watch `bus_call` of `play.c`: the value returned and the calls made. -/
def bus_call (msg : GstMessage) : Bool × List Act :=
  match msg with
  | GstMessage.GST_MESSAGE_EOS =>
    (true, [Act.g_print "EOS received\n", Act.g_main_loop_quit])
  | GstMessage.GST_MESSAGE_ERROR message debug =>
    (true, [Act.g_printerr ("Error: " ++ message ++ "\nDebug: " ++ debug.getD "NULL" ++ "\n"),
      Act.g_main_loop_quit])
  | _ => (true, [])

/-- What GStreamer answers to the calls of `setup_pipeline`: whether
`gst_pipeline_new` gave a pipeline, which elements could be created, and
which links are accepted by `gst_element_link` and by
`gst_element_link_filtered`. -/
structure SetupEnv where
  pipeline_created : Bool
  created : Elem → Bool
  linked : Elem → Elem → Bool
  linked_filtered : Elem → Elem → Bool

/-- The calls of `setup_pipeline` that create the fourteen elements, in order. -/
def make_elements (env : SetupEnv) : List Act :=
  (MakeElement (env.created Elem.filesrc) "filesrc" "file-source").2
  ++ (MakeElement (env.created Elem.tsdemux) "tsdemux" "ts-demux").2
  ++ (MakeElement (env.created Elem.video_queue) "queue" "video-queue").2
  ++ (MakeElement (env.created Elem.video_parse) "h264parse" "video-parse").2
  ++ (MakeElement (env.created Elem.video_dec) "avdec_h264" "video-decoder").2
  ++ (MakeElement (env.created Elem.video_convert) "videoconvert" "video-convert").2
  ++ (MakeElement (env.created Elem.video_sink) "autovideosink" "video-sink").2
  ++ (MakeElement (env.created Elem.audio_queue) "queue" "audio-queue").2
  ++ (MakeElement (env.created Elem.audio_parse) "aacparse" "audio-parse").2
  ++ (MakeElement (env.created Elem.audio_dec) "decodebin" "audio-dec").2
  ++ (MakeElement (env.created Elem.audio_convert) "audioconvert" "audio-convert").2
  ++ (MakeElement (env.created Elem.audio_resample) "audioresample" "audio-resample").2
  ++ (MakeElement (env.created Elem.audio_enc) "opusenc" "audio-enc").2
  ++ (MakeElement (env.created Elem.rtsp_sink) "rtspclientsink" "rtsp-sink").2

/-- The calls of `setup_pipeline` between the check of the elements and the
first checked link: the properties, the bin, and the link of `filesrc` to
`tsdemux`, whose result the function does not look at. -/
def configure (path rtsp_url : String) : List Act :=
  [Act.g_object_set "filesrc" "location" path,
   Act.g_object_set "rtsp_sink" "location" rtsp_url,
   Act.g_object_set "rtsp_sink" "ntp-time-source" "0",
   Act.g_object_set "video_sink" "ts-offset" "200 * GST_MSECOND",
   Act.g_object_set "video_sink" "sync" "TRUE",
   Act.gst_bin_add_many [Elem.filesrc, Elem.tsdemux,
     Elem.video_queue, Elem.video_parse, Elem.video_dec, Elem.video_convert, Elem.video_sink,
     Elem.audio_queue, Elem.audio_dec, Elem.audio_convert, Elem.audio_resample, Elem.audio_enc,
     Elem.rtsp_sink],
   Act.gst_element_link Elem.filesrc Elem.tsdemux]

/-- The function `setup_pipeline` of `play.c`: the value returned and the calls made. -/
def setup_pipeline (env : SetupEnv) (path rtsp_url : String) : Bool × List Act :=
  if !env.pipeline_created then
    (false, [Act.gst_pipeline_new "mpegts-pipeline", Act.g_printerr "Fail to create pipeline.\n"])
  else if !env.created Elem.filesrc || !env.created Elem.tsdemux || !env.created Elem.tsdemux
      || !env.created Elem.video_queue || !env.created Elem.video_parse
      || !env.created Elem.video_dec || !env.created Elem.video_convert
      || !env.created Elem.video_sink || !env.created Elem.audio_queue
      || !env.created Elem.audio_parse || !env.created Elem.audio_dec
      || !env.created Elem.audio_convert || !env.created Elem.audio_resample
      || !env.created Elem.audio_enc || !env.created Elem.rtsp_sink then
    (false, Act.gst_pipeline_new "mpegts-pipeline" :: make_elements env
      ++ [Act.g_printerr "All esssential elements must be created\n"])
  else if !(gst_element_link_many env.linked [Elem.video_queue, Elem.video_parse,
      Elem.video_dec, Elem.video_convert, Elem.video_sink]).1 then
    (false, Act.gst_pipeline_new "mpegts-pipeline" :: make_elements env
      ++ configure path rtsp_url
      ++ (gst_element_link_many env.linked [Elem.video_queue, Elem.video_parse,
          Elem.video_dec, Elem.video_convert, Elem.video_sink]).2
      ++ [Act.g_printerr "Fail connecting Video branch\n"])
  else if !(gst_element_link_many env.linked [Elem.audio_queue, Elem.audio_dec]).1 then
    (false, Act.gst_pipeline_new "mpegts-pipeline" :: make_elements env
      ++ configure path rtsp_url
      ++ (gst_element_link_many env.linked [Elem.video_queue, Elem.video_parse,
          Elem.video_dec, Elem.video_convert, Elem.video_sink]).2
      ++ (gst_element_link_many env.linked [Elem.audio_queue, Elem.audio_dec]).2
      ++ [Act.g_printerr "Fail connecting Audio branch\n"])
  else if !env.linked_filtered Elem.audio_enc Elem.rtsp_sink then
    (false, Act.gst_pipeline_new "mpegts-pipeline" :: make_elements env
      ++ configure path rtsp_url
      ++ (gst_element_link_many env.linked [Elem.video_queue, Elem.video_parse,
          Elem.video_dec, Elem.video_convert, Elem.video_sink]).2
      ++ (gst_element_link_many env.linked [Elem.audio_queue, Elem.audio_dec]).2
      ++ [Act.gst_element_link_filtered Elem.audio_enc Elem.rtsp_sink "audio/x-opus",
          Act.g_printerr "Fail connecting Audio branch\n"])
  else if !(gst_element_link_many env.linked [Elem.audio_convert, Elem.audio_resample,
      Elem.audio_enc]).1 then
    (false, Act.gst_pipeline_new "mpegts-pipeline" :: make_elements env
      ++ configure path rtsp_url
      ++ (gst_element_link_many env.linked [Elem.video_queue, Elem.video_parse,
          Elem.video_dec, Elem.video_convert, Elem.video_sink]).2
      ++ (gst_element_link_many env.linked [Elem.audio_queue, Elem.audio_dec]).2
      ++ [Act.gst_element_link_filtered Elem.audio_enc Elem.rtsp_sink "audio/x-opus"]
      ++ (gst_element_link_many env.linked [Elem.audio_convert, Elem.audio_resample,
          Elem.audio_enc]).2
      ++ [Act.g_printerr "Fail connecting Audio branch\n"])
  else
    (true, Act.gst_pipeline_new "mpegts-pipeline" :: make_elements env
      ++ configure path rtsp_url
      ++ (gst_element_link_many env.linked [Elem.video_queue, Elem.video_parse,
          Elem.video_dec, Elem.video_convert, Elem.video_sink]).2
      ++ (gst_element_link_many env.linked [Elem.audio_queue, Elem.audio_dec]).2
      ++ [Act.gst_element_link_filtered Elem.audio_enc Elem.rtsp_sink "audio/x-opus"]
      ++ (gst_element_link_many env.linked [Elem.audio_convert, Elem.audio_resample,
          Elem.audio_enc]).2
      ++ [Act.g_signal_connect "tsdemux" "pad-added" "on_pad_added",
          Act.g_signal_connect "audio_dec" "pad-added" "on_decoder_pad_added"])

/-- What the outside answers during a run of `main` of `play.c`: the
arguments, the answers to `setup_pipeline`, whether the system clock, the
time provider and the network clock were obtained, whether the clock
synchronised within the five seconds, what `gst_element_get_state` returned,
and the messages the bus hands to the watch while the loop runs. -/
structure Env where
  argv : List String
  setup : SetupEnv
  clock_obtained : Bool
  provider_created : Bool
  net_clock_created : Bool
  synced : Bool
  state_ret : GstStateChangeReturn
  messages : List GstMessage

/-- The calls of `main` from the wait for synchronisation to the request of
the PLAYING state and the wait for its result. -/
def sync_and_start (synced : Bool) : List Act :=
  [Act.g_print "Waiting for clock synchronization ...\n",
   Act.gst_clock_wait_for_sync synced,
   if !synced then Act.g_printerr "Warning: Clock sync timeout\n" else Act.g_print "Sync OK!\n",
   Act.gst_pipeline_use_clock,
   Act.g_print "Iniciando pipeline...\n",
   Act.gst_element_set_state GstState.GST_STATE_PLAYING,
   Act.gst_element_get_state]

/-- The calls of `main` after the loop has returned. -/
def cleanup : List Act :=
  [Act.g_object_unref "net_time_provider", Act.g_object_unref "clock",
   Act.gst_element_set_state GstState.GST_STATE_NULL,
   Act.g_object_unref "pipeline", Act.g_main_loop_unref]

/-- The function `main` of `play.c`. -/
def main (env : Env) : Run :=
  if env.argv.length < 2 then
    ⟨[Act.gst_init, Act.g_printerr ("Usage: " ++ arg env.argv 0 ++ " file.ts\n")], some (-1)⟩
  else if !(setup_pipeline env.setup (arg env.argv 1) (arg env.argv 2)).1 then
    ⟨[Act.gst_init, Act.g_main_loop_new]
      ++ (setup_pipeline env.setup (arg env.argv 1) (arg env.argv 2)).2
      ++ [Act.g_printerr "Failed to setup pipeline\n"], some (-1)⟩
  else if !env.clock_obtained then
    ⟨[Act.gst_init, Act.g_main_loop_new]
      ++ (setup_pipeline env.setup (arg env.argv 1) (arg env.argv 2)).2
      ++ [Act.gst_bus_add_watch, Act.gst_system_clock_obtain,
          Act.g_printerr "Failed to get pipeline clock\n"], some (-1)⟩
  else if !env.provider_created then
    ⟨[Act.gst_init, Act.g_main_loop_new]
      ++ (setup_pipeline env.setup (arg env.argv 1) (arg env.argv 2)).2
      ++ [Act.gst_bus_add_watch, Act.gst_system_clock_obtain,
          Act.gst_net_time_provider_new CLOCK_PORT,
          Act.g_printerr "Failed to create GstNetTimeProvider\n"], some (-1)⟩
  else if !env.net_clock_created then
    ⟨[Act.gst_init, Act.g_main_loop_new]
      ++ (setup_pipeline env.setup (arg env.argv 1) (arg env.argv 2)).2
      ++ [Act.gst_bus_add_watch, Act.gst_system_clock_obtain,
          Act.gst_net_time_provider_new CLOCK_PORT,
          Act.gst_net_client_clock_new "127.0.0.1" CLOCK_PORT,
          Act.g_printerr "Failed to create network clock\n"], some (-1)⟩
  else if env.state_ret = GstStateChangeReturn.GST_STATE_CHANGE_FAILURE then
    ⟨[Act.gst_init, Act.g_main_loop_new]
      ++ (setup_pipeline env.setup (arg env.argv 1) (arg env.argv 2)).2
      ++ [Act.gst_bus_add_watch, Act.gst_system_clock_obtain,
          Act.gst_net_time_provider_new CLOCK_PORT,
          Act.gst_net_client_clock_new "127.0.0.1" CLOCK_PORT]
      ++ sync_and_start env.synced
      ++ [Act.g_printerr "Failed to start pipeline\n"], some (-1)⟩
  else
    ⟨[Act.gst_init, Act.g_main_loop_new]
      ++ (setup_pipeline env.setup (arg env.argv 1) (arg env.argv 2)).2
      ++ [Act.gst_bus_add_watch, Act.gst_system_clock_obtain,
          Act.gst_net_time_provider_new CLOCK_PORT,
          Act.gst_net_client_clock_new "127.0.0.1" CLOCK_PORT]
      ++ sync_and_start env.synced
      ++ [Act.g_print "Clock provider rodando na porta 8557\n",
          Act.g_print "Clientes devem usar: clock-address=127.0.0.1 clock-port=8557\n\n",
          Act.g_print ("Pipeline em PLAY – lendo: " ++ arg env.argv 1 ++ "\n"),
          Act.g_print ("Publicando áudio em: " ++ arg env.argv 2 ++ "\n"),
          Act.g_main_loop_run]
      ++ (g_main_loop_run bus_call env.messages).1
      ++ (if (g_main_loop_run bus_call env.messages).2 then cleanup else []),
     if (g_main_loop_run bus_call env.messages).2 then some 0 else none⟩

end PocSync.Play

/-! ## `client.c` : the player -/

namespace PocSync.Client

/-- The bus watch `bus_call` of `client.c`: the value returned and the calls made. -/
def bus_call (msg : GstMessage) : Bool × List Act :=
  match msg with
  | GstMessage.GST_MESSAGE_EOS =>
    (true, [Act.g_print "End of stream\n", Act.g_main_loop_quit])
  | GstMessage.GST_MESSAGE_ERROR message debug =>
    (true, [Act.g_printerr ("Error: " ++ message ++ "\n")]
      ++ (match debug with
          | some d => [Act.g_printerr ("Debug: " ++ d ++ "\n")]
          | none => [])
      ++ [Act.g_main_loop_quit])
  | GstMessage.GST_MESSAGE_ELEMENT name =>
    if g_str_has_prefix name "GstRTCPPacket" then
      (true, [Act.g_print "RTCP sync info received\n"])
    else (true, [])
  | _ => (true, [])

/-- What the outside answers during a run of `main` of `client.c`: the
arguments, whether `playbin3` and then `playbin` could be created, the value
of `atoi (argv[3])`, whether the network clock was created, whether the clock
synchronised within the five seconds, what the request of the PLAYING state
returned, and the messages the bus hands to the watch while the loop runs. -/
structure Env where
  argv : List String
  playbin3_created : Bool
  playbin_created : Bool
  clock_port : Int
  net_clock_created : Bool
  synced : Bool
  state_ret : GstStateChangeReturn
  messages : List GstMessage

/-- The calls of `main` that create the player element. -/
def make_playbin (env : Env) : List Act :=
  if !env.playbin3_created then
    [Act.gst_element_factory_make "playbin3" "player",
     Act.gst_element_factory_make "playbin" "player"]
  else [Act.gst_element_factory_make "playbin3" "player"]

/-- The calls of `main` from the configuration of the player element to the
creation of the network clock. -/
def configure (env : Env) : List Act :=
  [Act.g_object_set "playbin" "uri" (arg env.argv 1),
   Act.g_signal_connect "playbin" "source-setup" "on_source_setup",
   Act.g_object_get "playbin" "flags",
   Act.g_object_set "playbin" "flags" "(flags & ~0x00000001) | 0x00000002",
   Act.g_print ("Connected to clock -> " ++ arg env.argv 2 ++ ":"
     ++ toString env.clock_port ++ "\n"),
   Act.gst_net_client_clock_new (arg env.argv 2) env.clock_port]

/-- The calls of `main` from the wait for synchronisation to the request of
the PLAYING state. -/
def sync_and_start (synced : Bool) : List Act :=
  [Act.g_print "Waiting clock synchronization ...\n",
   Act.gst_clock_wait_for_sync synced,
   if !synced then Act.g_printerr "Warning: Clock sync timeout\n"
   else Act.g_print "Clock synchronized!\n",
   Act.gst_pipeline_use_clock,
   Act.gst_bus_add_watch,
   Act.g_print "\nStarting playback using NTP-RTCP\n\n",
   Act.gst_element_set_state GstState.GST_STATE_PLAYING]

/-- The calls of `main` after the loop has returned. -/
def cleanup : List Act :=
  [Act.g_print "\nFinalizing...\n",
   Act.gst_element_set_state GstState.GST_STATE_NULL,
   Act.g_object_unref "playbin", Act.g_object_unref "net_clock", Act.g_main_loop_unref]

/-- The function `main` of `client.c`. -/
def main (env : Env) : Run :=
  if env.argv.length < 4 then
    ⟨[Act.gst_init,
      Act.g_printerr ("Usage: " ++ arg env.argv 0 ++ " <rtsp_url> <clock_ip> <clock_port>\n"),
      Act.g_printerr ("Example: " ++ arg env.argv 0
        ++ " rtsp://127.0.0.1:8554/audio 127.0.0.1 8555\n")], some (-1)⟩
  else if !env.playbin3_created && !env.playbin_created then
    ⟨[Act.gst_init, Act.g_main_loop_new] ++ make_playbin env
      ++ [Act.g_printerr "Failed to create playbin\n"], some (-1)⟩
  else if !env.net_clock_created then
    ⟨[Act.gst_init, Act.g_main_loop_new] ++ make_playbin env ++ configure env
      ++ [Act.g_printerr "Failed to create network clock\n"], some (-1)⟩
  else if env.state_ret = GstStateChangeReturn.GST_STATE_CHANGE_FAILURE then
    ⟨[Act.gst_init, Act.g_main_loop_new] ++ make_playbin env ++ configure env
      ++ sync_and_start env.synced
      ++ [Act.g_printerr "Failed to set playbin to PLAYING state\n"], some (-1)⟩
  else
    ⟨[Act.gst_init, Act.g_main_loop_new] ++ make_playbin env ++ configure env
      ++ sync_and_start env.synced
      ++ [Act.g_main_loop_run]
      ++ (g_main_loop_run bus_call env.messages).1
      ++ (if (g_main_loop_run bus_call env.messages).2 then cleanup else []),
     if (g_main_loop_run bus_call env.messages).2 then some 0 else none⟩

end PocSync.Client

/-! ## Sample answers and runs -/

namespace PocSync

/-- The answers with which every element is created and every link is
accepted except the one `gst_element_link (filesrc, tsdemux)`. -/
def Play.demux_link_rejected : Play.SetupEnv where
  pipeline_created := true
  created := fun _ => true
  linked := fun a b => !(a = Elem.filesrc && b = Elem.tsdemux)
  linked_filtered := fun _ _ => true

/-- The answers with which the pipeline and every element are created and
every link is accepted. -/
def Play.all_accepted : Play.SetupEnv where
  pipeline_created := true
  created := fun _ => true
  linked := fun _ _ => true
  linked_filtered := fun _ _ => true

/-- A run of the relay in which everything is set up and started, and the
bus then delivers one error message. -/
def Play.error_run : Play.Env where
  argv := ["play", "in.ts", "rtsp://127.0.0.1:8554/audio"]
  setup := Play.all_accepted
  clock_obtained := true
  provider_created := true
  net_clock_created := true
  synced := true
  state_ret := GstStateChangeReturn.GST_STATE_CHANGE_SUCCESS
  messages := [GstMessage.GST_MESSAGE_ERROR "Internal data stream error." (some "gstbasesrc.c")]

/-- A run of the relay in which everything is set up but
`gst_net_time_provider_new` yields no provider. -/
def Play.bind_failure_run : Play.Env where
  argv := ["play", "in.ts", "rtsp://127.0.0.1:8554/audio"]
  setup := Play.all_accepted
  clock_obtained := true
  provider_created := false
  net_clock_created := true
  synced := true
  state_ret := GstStateChangeReturn.GST_STATE_CHANGE_SUCCESS
  messages := []

/-- A run of the relay that is set up and started, with a clock that did not
synchronise in time, and ends at the end of the stream. -/
def Play.unsynced_run : Play.Env where
  argv := ["play", "in.ts", "rtsp://127.0.0.1:8554/audio"]
  setup := Play.all_accepted
  clock_obtained := true
  provider_created := true
  net_clock_created := true
  synced := false
  state_ret := GstStateChangeReturn.GST_STATE_CHANGE_ASYNC
  messages := [GstMessage.GST_MESSAGE_EOS]

/-- A run of the player in which everything is set up and started, and the
bus then delivers one error message. -/
def Client.error_run : Client.Env where
  argv := ["client", "rtsp://127.0.0.1:8554/audio", "127.0.0.1", "8557"]
  playbin3_created := true
  playbin_created := true
  clock_port := 8557
  net_clock_created := true
  synced := true
  state_ret := GstStateChangeReturn.GST_STATE_CHANGE_ASYNC
  messages := [GstMessage.GST_MESSAGE_ERROR "Could not open resource." none]

/-- A run of the player that is started, with a clock that did not
synchronise in time, and ends at the end of the stream. -/
def Client.unsynced_run : Client.Env where
  argv := ["client", "rtsp://127.0.0.1:8554/audio", "127.0.0.1", "8557"]
  playbin3_created := true
  playbin_created := true
  clock_port := 8557
  net_clock_created := true
  synced := false
  state_ret := GstStateChangeReturn.GST_STATE_CHANGE_ASYNC
  messages := [GstMessage.GST_MESSAGE_ELEMENT "GstRTCPPacket", GstMessage.GST_MESSAGE_EOS]

end PocSync

/-! ## Properties of the pad router -/

namespace PocSync

theorem not_both_prefixes (name : String)
    (h : g_str_has_prefix name "video/x-h264" = true) :
    g_str_has_prefix name "audio/mpeg" = false := by
  unfold g_str_has_prefix at *
  cases hd : name.data with
  | nil => rw [hd] at h; revert h; decide
  | cons c cs =>
    rw [hd] at h
    have hc : c = 'v' := by
      simp [List.isPrefixOf] at h
      exact h.1.symm
    subst hc
    simp [List.isPrefixOf]

section PadRouter

open Play

/-- C1: `on_pad_added` never clears a branch flag.  For every application
state and every pad-added event (any caps name, any `stream-format`, any
linked status of the queue's sink pad, any result of `gst_pad_link`), if
`video_linked` is TRUE before the call it is TRUE after it, and likewise
`audio_linked`. -/
theorem on_pad_added_flags_monotone (app : AppData) (ev : PadEvent) :
    (app.video_linked = true → (on_pad_added app ev).1.video_linked = true) ∧
    (app.audio_linked = true → (on_pad_added app ev).1.audio_linked = true) := by
  unfold on_pad_added
  constructor <;> intro h <;> split_ifs <;> simp_all

theorem on_pad_added_flags_monotone_witness :
    (on_pad_added ⟨true, false⟩
      ⟨"audio/mpeg", none, false, GstPadLinkReturn.GST_PAD_LINK_OK⟩).1.video_linked = true :=
  (on_pad_added_flags_monotone ⟨true, false⟩
    ⟨"audio/mpeg", none, false, GstPadLinkReturn.GST_PAD_LINK_OK⟩).1 rfl

/-- C2: a pad whose caps name matches a branch that is already Linked is
ignored.  When the name has the prefix `video/x-h264` and `video_linked` is
TRUE, or the prefix `audio/mpeg` and `audio_linked` is TRUE, `on_pad_added`
makes no call at all (so no `gst_pad_link` on either branch) and returns the
flags unchanged; handling the pad a second time, whatever the outside
answers then, gives the same flags as handling it once; and for any later
pad `ev3`, a branch whose flag is TRUE sees no `gst_pad_link`. -/
theorem on_pad_added_duplicate_is_noop (app : AppData) (ev ev2 ev3 : PadEvent)
    (hname : ev2.name = ev.name)
    (h : ( g_str_has_prefix ev.name "video/x-h264" = true ∧ app.video_linked = true) ∨
         ( g_str_has_prefix ev.name "audio/mpeg" = true ∧ app.audio_linked = true)) :
    (on_pad_added app ev).2 = [] ∧
    (∀ b : Branch, Act.gst_pad_link b ∉ (on_pad_added app ev).2) ∧
    (on_pad_added app ev).1 = app ∧
    (on_pad_added (on_pad_added app ev).1 ev2).1 = (on_pad_added app ev).1 ∧
    (on_pad_added (on_pad_added app ev).1 ev2).2 = [] ∧
    (app.video_linked = true → Act.gst_pad_link Branch.video ∉ (on_pad_added app ev3).2) ∧
    (app.audio_linked = true → Act.gst_pad_link Branch.audio ∉ (on_pad_added app ev3).2) := by
  have key : ∀ e : PadEvent, e.name = ev.name → on_pad_added app e = (app, []) := by
    intro e he
    unfold on_pad_added
    rw [he]
    rcases h with ⟨hp, hl⟩ | ⟨hp, hl⟩
    · have hq := not_both_prefixes ev.name hp
      simp [hp, hl, hq]
    · have hq : g_str_has_prefix ev.name "video/x-h264" = false := by
        cases hv : g_str_has_prefix ev.name "video/x-h264" with
        | false => rfl
        | true => rw [not_both_prefixes ev.name hv] at hp; cases hp
      simp [hp, hl, hq]
  have h1 := key ev rfl
  have h2 := key ev2 hname
  refine ⟨by rw [h1], ?_, by rw [h1], by rw [h1, h2], by rw [h1, h2], ?_, ?_⟩
  · intro b; rw [h1]; simp
  · intro hv; unfold on_pad_added; split_ifs <;> simp_all
  · intro ha; unfold on_pad_added; split_ifs <;> simp_all

theorem on_pad_added_duplicate_is_noop_witness :
    (on_pad_added ⟨true, false⟩
      ⟨"video/x-h264", none, false, GstPadLinkReturn.GST_PAD_LINK_OK⟩).2 = [] ∧
    (on_pad_added ⟨true, false⟩
      ⟨"video/x-h264", none, false, GstPadLinkReturn.GST_PAD_LINK_OK⟩).1 = ⟨true, false⟩ :=
  have h := on_pad_added_duplicate_is_noop ⟨true, false⟩
    ⟨"video/x-h264", none, false, GstPadLinkReturn.GST_PAD_LINK_OK⟩
    ⟨"video/x-h264", some "avc", true, GstPadLinkReturn.GST_PAD_LINK_REFUSED⟩
    ⟨"audio/mpeg", none, false, GstPadLinkReturn.GST_PAD_LINK_OK⟩
    rfl (Or.inl ⟨by decide, rfl⟩)
  ⟨h.1, h.2.2.1⟩

/-- C3: a pad whose caps name has neither the prefix `video/x-h264` nor the
prefix `audio/mpeg` is ignored: `on_pad_added` makes no call at all, so no
`gst_pad_link`, no `g_printerr`, no `g_main_loop_quit` and no state request,
and returns both flags unchanged. -/
theorem on_pad_added_unmatched_is_ignored (app : AppData) (ev : PadEvent)
    (hv : g_str_has_prefix ev.name "video/x-h264" = false)
    (ha : g_str_has_prefix ev.name "audio/mpeg" = false) :
    (on_pad_added app ev).2 = [] ∧
    (∀ a ∈ (on_pad_added app ev).2, a.isPadLink = false ∧ a.isErrorOrStop = false) ∧
    (on_pad_added app ev).1.video_linked = app.video_linked ∧
    (on_pad_added app ev).1.audio_linked = app.audio_linked := by
  have h : on_pad_added app ev = (app, []) := by
    unfold on_pad_added
    simp [hv, ha]
  rw [h]
  simp

theorem on_pad_added_unmatched_is_ignored_witness :
    (on_pad_added ⟨false, false⟩
      ⟨"video/x-raw", none, false, GstPadLinkReturn.GST_PAD_LINK_OK⟩).2 = [] :=
  (on_pad_added_unmatched_is_ignored ⟨false, false⟩
    ⟨"video/x-raw", none, false, GstPadLinkReturn.GST_PAD_LINK_OK⟩
    (by decide) (by decide)).1

/-- C4: starting with both flags FALSE and the queue's sink pad not linked,
a pad whose caps name has the prefix `audio/mpeg` and whose `gst_pad_link`
returns `GST_PAD_LINK_OK` sets `audio_linked` and leaves `video_linked`
FALSE; `gst_pad_link` was called on the audio queue and not on the video
queue, and nothing was reported as an error, nor was the loop quit or a state
requested.  With the prefix `video/x-h264` the same holds with the two
branches exchanged. -/
theorem on_pad_added_links_only_matching_branch (ev : PadEvent)
    (hs : ev.sink_is_linked = false)
    (hl : ev.link_ret = GstPadLinkReturn.GST_PAD_LINK_OK) :
    (( g_str_has_prefix ev.name "audio/mpeg" = true) →
      (on_pad_added ⟨false, false⟩ ev).1 = ⟨false, true⟩ ∧
      Act.gst_pad_link Branch.audio ∈ (on_pad_added ⟨false, false⟩ ev).2 ∧
      Act.gst_pad_link Branch.video ∉ (on_pad_added ⟨false, false⟩ ev).2 ∧
      (∀ a ∈ (on_pad_added ⟨false, false⟩ ev).2, a.isErrorOrStop = false)) ∧
    (( g_str_has_prefix ev.name "video/x-h264" = true) →
      (on_pad_added ⟨false, false⟩ ev).1 = ⟨true, false⟩ ∧
      Act.gst_pad_link Branch.video ∈ (on_pad_added ⟨false, false⟩ ev).2 ∧
      Act.gst_pad_link Branch.audio ∉ (on_pad_added ⟨false, false⟩ ev).2 ∧
      (∀ a ∈ (on_pad_added ⟨false, false⟩ ev).2, a.isErrorOrStop = false)) := by
  constructor
  · intro hp
    have hq : g_str_has_prefix ev.name "video/x-h264" = false := by
      cases hv : g_str_has_prefix ev.name "video/x-h264" with
      | false => rfl
      | true => rw [not_both_prefixes ev.name hv] at hp; cases hp
    unfold on_pad_added
    simp [hp, hq, hs, hl, Act.isErrorOrStop]
  · intro hp
    unfold on_pad_added
    simp [hp, hs, hl, Act.isErrorOrStop]

theorem on_pad_added_links_only_matching_branch_witness :
    (on_pad_added ⟨false, false⟩
      ⟨"audio/mpeg", some "adts", false, GstPadLinkReturn.GST_PAD_LINK_OK⟩).1 = ⟨false, true⟩ :=
  ((on_pad_added_links_only_matching_branch
    ⟨"audio/mpeg", some "adts", false, GstPadLinkReturn.GST_PAD_LINK_OK⟩ rfl rfl).1
    (by decide)).1

/-- C5: a failed link is soft.  When the caps name matches a branch whose
flag is FALSE and `gst_pad_link` does not return `GST_PAD_LINK_OK`,
`on_pad_added` returns both flags unchanged (the matched branch stays
Unlinked, the other keeps its state) and makes no `g_printerr`, no
`g_main_loop_quit` and no state request on the pipeline; when the queue's
sink pad was not linked, the one call it made is the `gst_pad_link` that
failed. -/
theorem on_pad_added_link_failure_is_soft (app : AppData) (ev : PadEvent)
    (hm : ( g_str_has_prefix ev.name "video/x-h264" = true ∧ app.video_linked = false) ∨
          ( g_str_has_prefix ev.name "audio/mpeg" = true ∧ app.audio_linked = false))
    (hf : ev.link_ret ≠ GstPadLinkReturn.GST_PAD_LINK_OK) :
    (on_pad_added app ev).1 = app ∧
    (∀ a ∈ (on_pad_added app ev).2, a.isErrorOrStop = false) ∧
    (ev.sink_is_linked = false → ∃ b, (on_pad_added app ev).2 = [Act.gst_pad_link b]) := by
  unfold on_pad_added
  rcases hm with ⟨hp, hu⟩ | ⟨hp, hu⟩
  · simp only [hp, hu]
    split_ifs <;> simp_all [Act.isErrorOrStop]
  · have hq : g_str_has_prefix ev.name "video/x-h264" = false := by
      cases hv : g_str_has_prefix ev.name "video/x-h264" with
      | false => rfl
      | true => rw [not_both_prefixes ev.name hv] at hp; cases hp
    simp only [hp, hu, hq]
    split_ifs <;> simp_all [Act.isErrorOrStop]

theorem on_pad_added_link_failure_is_soft_witness :
    (on_pad_added ⟨false, true⟩
      ⟨"video/x-h264", none, false, GstPadLinkReturn.GST_PAD_LINK_NOFORMAT⟩).1 = ⟨false, true⟩ :=
  (on_pad_added_link_failure_is_soft ⟨false, true⟩
    ⟨"video/x-h264", none, false, GstPadLinkReturn.GST_PAD_LINK_NOFORMAT⟩
    (Or.inl ⟨by decide, rfl⟩) (by decide)).1

end PadRouter

end PocSync

/-! ## Properties of `setup_pipeline` -/

namespace PocSync

theorem gst_element_link_many_calls (linked : Elem → Elem → Bool) (es : List Elem) :
    (gst_element_link_many linked es).2.all Act.isBuildCall = true := by
  induction es with
  | nil => simp [gst_element_link_many]
  | cons x xs ih =>
    cases xs with
    | nil => simp [gst_element_link_many]
    | cons y ys =>
      unfold gst_element_link_many
      split_ifs
      · simp only [List.all_cons, ih, Act.isBuildCall, Bool.and_self]
      · simp [Act.isBuildCall]

theorem MakeElement_calls (made : Bool) (factory name : String) :
    (Play.MakeElement made factory name).2.all Act.isBuildCall = true := by
  unfold Play.MakeElement
  split_ifs <;> simp [Act.isBuildCall]

theorem make_elements_calls (env : Play.SetupEnv) :
    (Play.make_elements env).all Act.isBuildCall = true := by
  unfold Play.make_elements
  simp only [List.all_append, MakeElement_calls, Bool.and_self]

theorem configure_calls (path rtsp_url : String) :
    (Play.configure path rtsp_url).all Act.isBuildCall = true := by
  simp [Play.configure, Act.isBuildCall]

theorem setup_pipeline_calls (env : Play.SetupEnv) (path rtsp_url : String) :
    (Play.setup_pipeline env path rtsp_url).2.all Act.isBuildCall = true := by
  have hm := make_elements_calls env
  have hc := configure_calls path rtsp_url
  have hl := fun es => gst_element_link_many_calls env.linked es
  unfold Play.setup_pipeline
  split_ifs <;>
    simp only [List.all_append, List.all_cons, List.all_nil, List.cons_append, hm, hc, hl,
      Act.isBuildCall, Bool.and_self]

theorem not_mem_setup_pipeline (env : Play.SetupEnv) (path rtsp_url : String) (a : Act)
    (ha : a.isBuildCall = false) : a ∉ (Play.setup_pipeline env path rtsp_url).2 := by
  intro hmem
  have h := List.all_eq_true.mp (setup_pipeline_calls env path rtsp_url) a hmem
  rw [ha] at h
  cases h

theorem gst_element_link_many_true_iff (linked : Elem → Elem → Bool) (es : List Elem) :
    (gst_element_link_many linked es).1 = true ↔
      ∀ p ∈ es.zip es.tail, linked p.1 p.2 = true := by
  induction es with
  | nil => simp [gst_element_link_many]
  | cons x xs ih =>
    cases xs with
    | nil => simp [gst_element_link_many]
    | cons y ys =>
      unfold gst_element_link_many
      split_ifs with h
      · simp only [ih, List.tail_cons, List.zip_cons_cons, List.forall_mem_cons, h, true_and]
      · simp only [List.tail_cons, List.zip_cons_cons, List.forall_mem_cons, h]
        simp

/-- What `setup_pipeline` does check: it returns TRUE exactly when the
pipeline and all fourteen elements were created and the eight links of the
video branch, of the audio branch and into the RTSP sink were accepted.  The
link of `filesrc` to `tsdemux` is not among the conditions. -/
theorem setup_pipeline_true_iff (env : Play.SetupEnv) (path rtsp_url : String) :
    (Play.setup_pipeline env path rtsp_url).1 = true ↔
      env.pipeline_created = true ∧ (∀ e : Elem, env.created e = true) ∧
      env.linked Elem.video_queue Elem.video_parse = true ∧
      env.linked Elem.video_parse Elem.video_dec = true ∧
      env.linked Elem.video_dec Elem.video_convert = true ∧
      env.linked Elem.video_convert Elem.video_sink = true ∧
      env.linked Elem.audio_queue Elem.audio_dec = true ∧
      env.linked_filtered Elem.audio_enc Elem.rtsp_sink = true ∧
      env.linked Elem.audio_convert Elem.audio_resample = true ∧
      env.linked Elem.audio_resample Elem.audio_enc = true := by
  have hall : (∀ e : Elem, env.created e = true) ↔
      (env.created Elem.filesrc = true ∧ env.created Elem.tsdemux = true ∧
       env.created Elem.video_queue = true ∧ env.created Elem.video_parse = true ∧
       env.created Elem.video_dec = true ∧ env.created Elem.video_convert = true ∧
       env.created Elem.video_sink = true ∧ env.created Elem.audio_queue = true ∧
       env.created Elem.audio_parse = true ∧ env.created Elem.audio_dec = true ∧
       env.created Elem.audio_convert = true ∧ env.created Elem.audio_resample = true ∧
       env.created Elem.audio_enc = true ∧ env.created Elem.rtsp_sink = true) := by
    constructor
    · intro h
      exact ⟨h _, h _, h _, h _, h _, h _, h _, h _, h _, h _, h _, h _, h _, h _⟩
    · rintro ⟨h1, h2, h3, h4, h5, h6, h7, h8, h9, h10, h11, h12, h13, h14⟩ e
      cases e <;> assumption
  have hv := gst_element_link_many_true_iff env.linked [Elem.video_queue, Elem.video_parse,
      Elem.video_dec, Elem.video_convert, Elem.video_sink]
  have ha := gst_element_link_many_true_iff env.linked [Elem.audio_queue, Elem.audio_dec]
  have hc := gst_element_link_many_true_iff env.linked [Elem.audio_convert,
      Elem.audio_resample, Elem.audio_enc]
  simp only [List.tail_cons, List.zip_cons_cons, List.zip_nil_right, List.forall_mem_cons,
    List.not_mem_nil, false_implies, implies_true, and_true] at hv ha hc
  rw [hall]
  unfold Play.setup_pipeline
  split_ifs with h1 h2 h3 h4 h5 h6
  · simp at h1; simp [h1]
  · simp only [Bool.or_eq_true, Bool.not_eq_true'] at h2
    simp only [false_iff]
    intro hh
    simp only [hh.2.1, or_self] at h2
    cases h2
  · simp only [Bool.not_eq_true', ← Bool.not_eq_true, hv] at h3
    simp only [false_iff]
    intro hh
    exact h3 ⟨hh.2.2.1, hh.2.2.2.1, hh.2.2.2.2.1, hh.2.2.2.2.2.1⟩
  · simp only [Bool.not_eq_true', ← Bool.not_eq_true, ha] at h4
    simp only [false_iff]
    intro hh
    exact h4 hh.2.2.2.2.2.2.1
  · simp only [Bool.not_eq_true'] at h5
    simp only [false_iff]
    intro hh
    rw [hh.2.2.2.2.2.2.2.1] at h5
    cases h5
  · simp only [Bool.not_eq_true', ← Bool.not_eq_true, hc] at h6
    simp only [false_iff]
    intro hh
    exact h6 ⟨hh.2.2.2.2.2.2.2.2.1, hh.2.2.2.2.2.2.2.2.2⟩
  · simp only [Bool.not_eq_true', Bool.not_eq_false, Bool.or_eq_true, not_or,
      ← Bool.not_eq_true, hv, ha, hc, not_not] at h1 h2 h3 h4 h5 h6
    simp only [true_iff]
    obtain ⟨⟨⟨⟨⟨⟨⟨⟨⟨⟨⟨⟨⟨⟨e1, e2⟩, _⟩, e3⟩, e4⟩, e5⟩, e6⟩, e7⟩, e8⟩, e9⟩, e10⟩, e11⟩, e12⟩,
      e13⟩, e14⟩ := h2
    exact ⟨h1, ⟨e1, e2, e3, e4, e5, e6, e7, e8, e9, e10, e11, e12, e13, e14⟩,
      h3.1, h3.2.1, h3.2.2.1, h3.2.2.2, h4, h5, h6.1, h6.2⟩

/-- C7: `setup_pipeline` does not fail when the link of `filesrc` to `tsdemux`
is rejected.  With every element created, that one link rejected and every
other link accepted, `setup_pipeline` calls `gst_element_link (filesrc,
tsdemux)`, returns TRUE, and `main` goes on to request the PLAYING state and
returns 0 at the end of the stream. -/
theorem setup_pipeline_ignores_demux_link (path rtsp_url : String) :
    Play.demux_link_rejected.linked Elem.filesrc Elem.tsdemux = false ∧
    Act.gst_element_link Elem.filesrc Elem.tsdemux
      ∈ (Play.setup_pipeline Play.demux_link_rejected path rtsp_url).2 ∧
    (Play.setup_pipeline Play.demux_link_rejected path rtsp_url).1 = true ∧
    Act.gst_element_set_state GstState.GST_STATE_PLAYING
      ∈ (Play.main ⟨["play", path, rtsp_url], Play.demux_link_rejected, true, true, true, true,
          GstStateChangeReturn.GST_STATE_CHANGE_SUCCESS, [GstMessage.GST_MESSAGE_EOS]⟩).trace ∧
    (Play.main ⟨["play", path, rtsp_url], Play.demux_link_rejected, true, true, true, true,
        GstStateChangeReturn.GST_STATE_CHANGE_SUCCESS, [GstMessage.GST_MESSAGE_EOS]⟩).exit
      = some 0 := by
  have hs : (Play.setup_pipeline Play.demux_link_rejected path rtsp_url).1 = true := by
    rw [setup_pipeline_true_iff]
    simp [Play.demux_link_rejected]
  refine ⟨by simp [Play.demux_link_rejected], ?_, hs, ?_, ?_⟩
  · simp [Play.setup_pipeline, Play.demux_link_rejected, gst_element_link_many, Play.configure]
  · unfold Play.main
    simp [arg, hs, Play.sync_and_start]
  · unfold Play.main
    simp [arg, hs, g_main_loop_run, Play.bus_call]


/-! ## Properties of the two `main` functions -/

theorem setup_pipeline_head (env : Play.SetupEnv) (path rtsp_url : String) :
    ∃ rest, (Play.setup_pipeline env path rtsp_url).2
      = Act.gst_pipeline_new "mpegts-pipeline" :: rest := by
  unfold Play.setup_pipeline
  split_ifs <;> exact ⟨_, by simp only [List.cons_append]; rfl⟩

theorem g_main_loop_run_quits (watch : GstMessage → Bool × List Act)
    (pre post : List GstMessage) (t : GstMessage)
    (hpre : ∀ x ∈ pre, Act.g_main_loop_quit ∉ (watch x).2)
    (ht : Act.g_main_loop_quit ∈ (watch t).2) :
    ∃ before, g_main_loop_run watch (pre ++ t :: post) = (before ++ (watch t).2, true) := by
  induction pre with
  | nil => exact ⟨[], by simp [g_main_loop_run, ht]⟩
  | cons x xs ih =>
    have hx : Act.g_main_loop_quit ∉ (watch x).2 := hpre x (List.mem_cons_self _ _)
    obtain ⟨b, hb⟩ := ih (fun y hy => hpre y (List.mem_cons_of_mem _ hy))
    refine ⟨(watch x).2 ++ b, ?_⟩
    simp [g_main_loop_run, hx, hb]

theorem play_playing_mem_iff (env : Play.Env) :
    Act.gst_element_set_state GstState.GST_STATE_PLAYING ∈ (Play.main env).trace ↔
      (2 ≤ env.argv.length ∧
       (Play.setup_pipeline env.setup (arg env.argv 1) (arg env.argv 2)).1 = true ∧
       env.clock_obtained = true ∧ env.provider_created = true ∧
       env.net_clock_created = true) := by
  have hn := not_mem_setup_pipeline env.setup (arg env.argv 1) (arg env.argv 2)
    (Act.gst_element_set_state GstState.GST_STATE_PLAYING) rfl
  unfold Play.main
  split_ifs with h1 h2 h3 h4 h5 h6 <;>
    simp_all [Play.sync_and_start]

theorem play_loop_run_mem_iff (env : Play.Env) :
    Act.g_main_loop_run ∈ (Play.main env).trace ↔
      (2 ≤ env.argv.length ∧
       (Play.setup_pipeline env.setup (arg env.argv 1) (arg env.argv 2)).1 = true ∧
       env.clock_obtained = true ∧ env.provider_created = true ∧
       env.net_clock_created = true ∧
       env.state_ret ≠ GstStateChangeReturn.GST_STATE_CHANGE_FAILURE) := by
  have hn := not_mem_setup_pipeline env.setup (arg env.argv 1) (arg env.argv 2)
    Act.g_main_loop_run rfl
  unfold Play.main
  cases hs : env.synced <;>
    split_ifs with h1 h2 h3 h4 h5 h6 <;>
    simp_all [Play.sync_and_start]

theorem setup_pipeline_all_accepted (path rtsp_url : String) :
    (Play.setup_pipeline Play.all_accepted path rtsp_url).1 = true := by
  rw [setup_pipeline_true_iff]
  simp [Play.all_accepted]

theorem error_run_reaches_loop :
    Act.g_main_loop_run ∈ (Play.main Play.error_run).trace := by
  rw [play_loop_run_mem_iff]
  simp [Play.error_run, arg, setup_pipeline_all_accepted]

/-- C6, as stated, fails: in a run where setup succeeds, the loop runs and
the bus delivers an error message, `bus_call` reports it and quits the loop,
and `main` returns 0, not a non-zero code. -/
theorem main_returns_zero_after_bus_error :
    Act.g_main_loop_run ∈ (Play.main Play.error_run).trace ∧
    Act.g_printerr "Error: Internal data stream error.\nDebug: gstbasesrc.c\n"
      ∈ (Play.main Play.error_run).trace ∧
    Act.g_main_loop_quit ∈ (Play.main Play.error_run).trace ∧
    (Play.main Play.error_run).exit = some 0 := by
  have hs := setup_pipeline_all_accepted "in.ts" "rtsp://127.0.0.1:8554/audio"
  refine ⟨error_run_reaches_loop, ?_, ?_, ?_⟩ <;>
    · unfold Play.main
      simp [Play.error_run, arg, hs, g_main_loop_run, Play.bus_call]

theorem client_loop_run_mem_iff (env : Client.Env) :
    Act.g_main_loop_run ∈ (Client.main env).trace ↔
      (4 ≤ env.argv.length ∧ (env.playbin3_created = true ∨ env.playbin_created = true) ∧
       env.net_clock_created = true ∧
       env.state_ret ≠ GstStateChangeReturn.GST_STATE_CHANGE_FAILURE) := by
  unfold Client.main
  cases h3 : env.playbin3_created <;> cases hb : env.playbin_created <;>
    cases hs : env.synced <;>
    split_ifs with h1 h2 h4 h5 <;>
    simp_all [Client.sync_and_start, Client.make_playbin, Client.configure]

theorem client_error_run_reaches_loop :
    Act.g_main_loop_run ∈ (Client.main Client.error_run).trace := by
  rw [client_loop_run_mem_iff]
  simp [Client.error_run]

/-- C6, amended: for an error message `bus_call` of `play.c` prints the
message and the debug string (or `NULL`) with `g_printerr` and calls
`g_main_loop_quit`; `bus_call` of `client.c` prints the message, the debug
string when there is one, and calls `g_main_loop_quit`.  In every run of the
relay, and in every run of the player, in which the loop runs and the first
message on which `bus_call` quits is an error or the end of the stream, the
calls of `bus_call` for that message and then the cleanup are the last calls
of `main`, and `main` returns 0 in both cases: after an error exactly as
after the end of the stream. -/
theorem bus_error_quits_loop_and_main_returns_zero
    (message : String) (debug : Option String) :
    Play.bus_call (GstMessage.GST_MESSAGE_ERROR message debug)
      = (true, [Act.g_printerr ("Error: " ++ message ++ "\nDebug: " ++ debug.getD "NULL" ++ "\n"),
          Act.g_main_loop_quit]) ∧
    Play.bus_call GstMessage.GST_MESSAGE_EOS
      = (true, [Act.g_print "EOS received\n", Act.g_main_loop_quit]) ∧
    Client.bus_call (GstMessage.GST_MESSAGE_ERROR message debug)
      = (true, [Act.g_printerr ("Error: " ++ message ++ "\n")]
          ++ (match debug with
              | some d => [Act.g_printerr ("Debug: " ++ d ++ "\n")]
              | none => [])
          ++ [Act.g_main_loop_quit]) ∧
    Client.bus_call GstMessage.GST_MESSAGE_EOS
      = (true, [Act.g_print "End of stream\n", Act.g_main_loop_quit]) ∧
    (∀ (env : Play.Env) (pre post : List GstMessage) (t : GstMessage),
      Act.g_main_loop_run ∈ (Play.main env).trace →
      env.messages = pre ++ t :: post →
      (∀ x ∈ pre, Act.g_main_loop_quit ∉ (Play.bus_call x).2) →
      (t = GstMessage.GST_MESSAGE_ERROR message debug ∨ t = GstMessage.GST_MESSAGE_EOS) →
      (∃ before, (Play.main env).trace = before ++ (Play.bus_call t).2 ++ Play.cleanup) ∧
      (Play.main env).exit = some 0) ∧
    (∀ (env : Client.Env) (pre post : List GstMessage) (t : GstMessage),
      Act.g_main_loop_run ∈ (Client.main env).trace →
      env.messages = pre ++ t :: post →
      (∀ x ∈ pre, Act.g_main_loop_quit ∉ (Client.bus_call x).2) →
      (t = GstMessage.GST_MESSAGE_ERROR message debug ∨ t = GstMessage.GST_MESSAGE_EOS) →
      (∃ before, (Client.main env).trace
        = before ++ (Client.bus_call t).2 ++ Client.cleanup) ∧
      (Client.main env).exit = some 0) := by
  refine ⟨rfl, rfl, rfl, rfl, ?_, ?_⟩
  · intro env pre post t hrun hmsgs hpre ht
    have hq : Act.g_main_loop_quit ∈ (Play.bus_call t).2 := by
      rcases ht with rfl | rfl <;> simp [Play.bus_call]
    obtain ⟨b, hb⟩ := g_main_loop_run_quits Play.bus_call pre post t hpre hq
    rw [play_loop_run_mem_iff] at hrun
    obtain ⟨h1, h2, h3, h4, h5, h6⟩ := hrun
    constructor
    · unfold Play.main
      rw [hmsgs, hb]
      simp only [h2, h3, h4, h5, h6, if_true, if_false, Bool.not_true, Bool.false_eq_true,
        not_lt.mpr h1]
      refine ⟨[Act.gst_init, Act.g_main_loop_new]
        ++ (Play.setup_pipeline env.setup (arg env.argv 1) (arg env.argv 2)).2
        ++ [Act.gst_bus_add_watch, Act.gst_system_clock_obtain,
            Act.gst_net_time_provider_new Play.CLOCK_PORT,
            Act.gst_net_client_clock_new "127.0.0.1" Play.CLOCK_PORT]
        ++ Play.sync_and_start env.synced
        ++ [Act.g_print "Clock provider rodando na porta 8557\n",
            Act.g_print "Clientes devem usar: clock-address=127.0.0.1 clock-port=8557\n\n",
            Act.g_print ("Pipeline em PLAY – lendo: " ++ arg env.argv 1 ++ "\n"),
            Act.g_print ("Publicando áudio em: " ++ arg env.argv 2 ++ "\n"),
            Act.g_main_loop_run]
        ++ b, ?_⟩
      simp only [List.append_assoc]
    · unfold Play.main
      rw [hmsgs, hb]
      simp [h2, h3, h4, h5, h6, not_lt.mpr h1]
  · intro env pre post t hrun hmsgs hpre ht
    have hq : Act.g_main_loop_quit ∈ (Client.bus_call t).2 := by
      rcases ht with rfl | rfl <;> simp [Client.bus_call]
    obtain ⟨b, hb⟩ := g_main_loop_run_quits Client.bus_call pre post t hpre hq
    rw [client_loop_run_mem_iff] at hrun
    obtain ⟨h1, h2, h3, h4⟩ := hrun
    have hpb : (!env.playbin3_created && !env.playbin_created) = false := by
      rcases h2 with h2 | h2 <;> simp [h2]
    constructor
    · unfold Client.main
      rw [hmsgs, hb]
      simp only [hpb, h3, h4, if_true, if_false, Bool.not_true, Bool.false_eq_true,
        not_lt.mpr h1]
      refine ⟨[Act.gst_init, Act.g_main_loop_new] ++ Client.make_playbin env
        ++ Client.configure env ++ Client.sync_and_start env.synced
        ++ [Act.g_main_loop_run] ++ b, ?_⟩
      simp only [List.append_assoc]
    · unfold Client.main
      rw [hmsgs, hb]
      simp [hpb, h3, h4, not_lt.mpr h1]

theorem bus_error_quits_loop_and_main_returns_zero_witness :
    (Play.main Play.error_run).exit = some 0 ∧
    (Client.main Client.error_run).exit = some 0 :=
  ⟨((bus_error_quits_loop_and_main_returns_zero
      "Internal data stream error." (some "gstbasesrc.c")).2.2.2.2.1
      Play.error_run [] []
      (GstMessage.GST_MESSAGE_ERROR "Internal data stream error." (some "gstbasesrc.c"))
      error_run_reaches_loop rfl (by simp) (Or.inl rfl)).2,
   ((bus_error_quits_loop_and_main_returns_zero "Could not open resource." none).2.2.2.2.2
      Client.error_run [] []
      (GstMessage.GST_MESSAGE_ERROR "Could not open resource." none)
      client_error_run_reaches_loop rfl (by simp) (Or.inl rfl)).2⟩

/-- C8, as stated, fails: in a run where `gst_net_time_provider_new` is
called and yields no provider, `setup_pipeline` has been executed (and has
returned TRUE) before that call. -/
theorem main_runs_setup_before_clock_bind :
    Play.bind_failure_run.provider_created = false ∧
    (Play.setup_pipeline Play.bind_failure_run.setup "in.ts" "rtsp://127.0.0.1:8554/audio").1
      = true ∧
    (Play.main Play.bind_failure_run).trace
      = [Act.gst_init, Act.g_main_loop_new]
        ++ (Play.setup_pipeline Play.bind_failure_run.setup
              "in.ts" "rtsp://127.0.0.1:8554/audio").2
        ++ [Act.gst_bus_add_watch, Act.gst_system_clock_obtain,
            Act.gst_net_time_provider_new 8557,
            Act.g_printerr "Failed to create GstNetTimeProvider\n"] ∧
    Act.gst_pipeline_new "mpegts-pipeline" ∈ (Play.main Play.bind_failure_run).trace := by
  have hs := setup_pipeline_all_accepted "in.ts" "rtsp://127.0.0.1:8554/audio"
  obtain ⟨rest, hr⟩ := setup_pipeline_head Play.all_accepted "in.ts" "rtsp://127.0.0.1:8554/audio"
  refine ⟨rfl, hs, ?_, ?_⟩
  · unfold Play.main
    simp [Play.bind_failure_run, arg, hs, Play.CLOCK_PORT]
  · unfold Play.main
    simp [Play.bind_failure_run, arg, hs, hr]

/-- C8, amended: in every run of the relay in which
`gst_net_time_provider_new` is called and yields no provider, `main` reports
`Failed to create GstNetTimeProvider` as its last call, returns -1 and never
requests the PLAYING state; `setup_pipeline` has already been executed and
has returned TRUE before the provider is created: its calls, starting with
`gst_pipeline_new`, precede the call of `gst_net_time_provider_new`. -/
theorem main_clock_bind_failure_is_fatal (env : Play.Env)
    (hcall : Act.gst_net_time_provider_new Play.CLOCK_PORT ∈ (Play.main env).trace)
    (hp : env.provider_created = false) :
    (Play.main env).exit = some (-1) ∧
    Act.gst_element_set_state GstState.GST_STATE_PLAYING ∉ (Play.main env).trace ∧
    (Play.setup_pipeline env.setup (arg env.argv 1) (arg env.argv 2)).1 = true ∧
    (Play.main env).trace
      = [Act.gst_init, Act.g_main_loop_new]
        ++ (Play.setup_pipeline env.setup (arg env.argv 1) (arg env.argv 2)).2
        ++ [Act.gst_bus_add_watch, Act.gst_system_clock_obtain,
            Act.gst_net_time_provider_new Play.CLOCK_PORT,
            Act.g_printerr "Failed to create GstNetTimeProvider\n"] ∧
    Act.gst_pipeline_new "mpegts-pipeline" ∈ (Play.main env).trace := by
  have hn := not_mem_setup_pipeline env.setup (arg env.argv 1) (arg env.argv 2)
    (Act.gst_net_time_provider_new Play.CLOCK_PORT) rfl
  have hplay : Act.gst_element_set_state GstState.GST_STATE_PLAYING ∉ (Play.main env).trace := by
    rw [play_playing_mem_iff]
    simp [hp]
  obtain ⟨rest, hr⟩ := setup_pipeline_head env.setup (arg env.argv 1) (arg env.argv 2)
  refine ⟨?_, hplay, ?_⟩
  · unfold Play.main
    split_ifs <;> simp_all
  · unfold Play.main at hcall ⊢
    split_ifs at hcall ⊢ with h1 h2 h3 h4 <;> simp_all

theorem main_clock_bind_failure_is_fatal_witness :
    (Play.main Play.bind_failure_run).exit = some (-1) :=
  (main_clock_bind_failure_is_fatal Play.bind_failure_run
    (by
      unfold Play.main
      simp [Play.bind_failure_run, arg, setup_pipeline_all_accepted])
    rfl).1

theorem client_playing_mem_iff (env : Client.Env) :
    Act.gst_element_set_state GstState.GST_STATE_PLAYING ∈ (Client.main env).trace ↔
      (4 ≤ env.argv.length ∧ (env.playbin3_created = true ∨ env.playbin_created = true) ∧
       env.net_clock_created = true) := by
  unfold Client.main
  cases h3 : env.playbin3_created <;> cases hb : env.playbin_created <;>
    split_ifs with h1 h2 h4 h5 <;>
    simp_all [Client.sync_and_start, Client.make_playbin, Client.configure]

/-- C9: in every run of the relay and in every run of the player that
requests the PLAYING state, the calls made are
`pre`, `gst_clock_wait_for_sync`, its report, `gst_pipeline_use_clock`,
`mid`, the request of the PLAYING state, `post`, with no request of the
PLAYING state in `pre` or `mid`: the wait has returned and the clock has been
adopted before the first such request.  With the same `pre`, `mid` and
`post`, the run in which the wait times out and the run in which it succeeds
differ only in the result of the wait and in its report (the warning
`Clock sync timeout` instead of the success message), and `main` returns the
same value in both. -/
theorem playing_requested_after_sync_and_clock (pe : Play.Env) (ce : Client.Env) :
    (Act.gst_element_set_state GstState.GST_STATE_PLAYING ∈ (Play.main pe).trace →
      ∃ pre mid post,
        Act.gst_element_set_state GstState.GST_STATE_PLAYING ∉ pre ∧
        Act.gst_element_set_state GstState.GST_STATE_PLAYING ∉ mid ∧
        (Play.main pe).trace
          = pre ++ [Act.gst_clock_wait_for_sync pe.synced,
              if !pe.synced then Act.g_printerr "Warning: Clock sync timeout\n"
              else Act.g_print "Sync OK!\n",
              Act.gst_pipeline_use_clock]
            ++ mid ++ Act.gst_element_set_state GstState.GST_STATE_PLAYING :: post ∧
        ∀ b : Bool,
          (Play.main { pe with synced := b }).trace
            = pre ++ [Act.gst_clock_wait_for_sync b,
                if !b then Act.g_printerr "Warning: Clock sync timeout\n"
                else Act.g_print "Sync OK!\n",
                Act.gst_pipeline_use_clock]
              ++ mid ++ Act.gst_element_set_state GstState.GST_STATE_PLAYING :: post ∧
          (Play.main { pe with synced := b }).exit = (Play.main pe).exit) ∧
    (Act.gst_element_set_state GstState.GST_STATE_PLAYING ∈ (Client.main ce).trace →
      ∃ pre mid post,
        Act.gst_element_set_state GstState.GST_STATE_PLAYING ∉ pre ∧
        Act.gst_element_set_state GstState.GST_STATE_PLAYING ∉ mid ∧
        (Client.main ce).trace
          = pre ++ [Act.gst_clock_wait_for_sync ce.synced,
              if !ce.synced then Act.g_printerr "Warning: Clock sync timeout\n"
              else Act.g_print "Clock synchronized!\n",
              Act.gst_pipeline_use_clock]
            ++ mid ++ Act.gst_element_set_state GstState.GST_STATE_PLAYING :: post ∧
        ∀ b : Bool,
          (Client.main { ce with synced := b }).trace
            = pre ++ [Act.gst_clock_wait_for_sync b,
                if !b then Act.g_printerr "Warning: Clock sync timeout\n"
                else Act.g_print "Clock synchronized!\n",
                Act.gst_pipeline_use_clock]
              ++ mid ++ Act.gst_element_set_state GstState.GST_STATE_PLAYING :: post ∧
          (Client.main { ce with synced := b }).exit = (Client.main ce).exit) := by
  constructor
  · intro h
    rw [play_playing_mem_iff] at h
    obtain ⟨h1, h2, h3, h4, h5⟩ := h
    have hn := not_mem_setup_pipeline pe.setup (arg pe.argv 1) (arg pe.argv 2)
      (Act.gst_element_set_state GstState.GST_STATE_PLAYING) rfl
    have h0 : ¬ pe.argv.length < 2 := not_lt.mpr h1
    by_cases c6 : pe.state_ret = GstStateChangeReturn.GST_STATE_CHANGE_FAILURE
    · refine ⟨[Act.gst_init, Act.g_main_loop_new]
          ++ (Play.setup_pipeline pe.setup (arg pe.argv 1) (arg pe.argv 2)).2
          ++ [Act.gst_bus_add_watch, Act.gst_system_clock_obtain,
              Act.gst_net_time_provider_new Play.CLOCK_PORT,
              Act.gst_net_client_clock_new "127.0.0.1" Play.CLOCK_PORT,
              Act.g_print "Waiting for clock synchronization ...\n"],
        [Act.g_print "Iniciando pipeline...\n"],
        [Act.gst_element_get_state, Act.g_printerr "Failed to start pipeline\n"],
        by simp [hn], by simp, ?_, ?_⟩
      · unfold Play.main
        simp [h0, h2, h3, h4, h5, c6, Play.sync_and_start]
      · intro b
        unfold Play.main
        simp [h0, h2, h3, h4, h5, c6, Play.sync_and_start]
    · refine ⟨[Act.gst_init, Act.g_main_loop_new]
          ++ (Play.setup_pipeline pe.setup (arg pe.argv 1) (arg pe.argv 2)).2
          ++ [Act.gst_bus_add_watch, Act.gst_system_clock_obtain,
              Act.gst_net_time_provider_new Play.CLOCK_PORT,
              Act.gst_net_client_clock_new "127.0.0.1" Play.CLOCK_PORT,
              Act.g_print "Waiting for clock synchronization ...\n"],
        [Act.g_print "Iniciando pipeline...\n"],
        [Act.gst_element_get_state,
          Act.g_print "Clock provider rodando na porta 8557\n",
          Act.g_print "Clientes devem usar: clock-address=127.0.0.1 clock-port=8557\n\n",
          Act.g_print ("Pipeline em PLAY – lendo: " ++ arg pe.argv 1 ++ "\n"),
          Act.g_print ("Publicando áudio em: " ++ arg pe.argv 2 ++ "\n"),
          Act.g_main_loop_run]
          ++ (g_main_loop_run Play.bus_call pe.messages).1
          ++ (if (g_main_loop_run Play.bus_call pe.messages).2 then Play.cleanup else []),
        by simp [hn], by simp, ?_, ?_⟩
      · unfold Play.main
        simp [h0, h2, h3, h4, h5, c6, Play.sync_and_start]
      · intro b
        unfold Play.main
        simp [h0, h2, h3, h4, h5, c6, Play.sync_and_start]
  · intro h
    rw [client_playing_mem_iff] at h
    obtain ⟨h1, h2, h3⟩ := h
    have h0 : ¬ ce.argv.length < 4 := not_lt.mpr h1
    have hpb : (!ce.playbin3_created && !ce.playbin_created) = false := by
      rcases h2 with h2 | h2 <;> simp [h2]
    have hmk : Act.gst_element_set_state GstState.GST_STATE_PLAYING ∉ Client.make_playbin ce := by
      unfold Client.make_playbin
      split_ifs <;> simp
    by_cases c6 : ce.state_ret = GstStateChangeReturn.GST_STATE_CHANGE_FAILURE
    · refine ⟨[Act.gst_init, Act.g_main_loop_new] ++ Client.make_playbin ce
          ++ Client.configure ce ++ [Act.g_print "Waiting clock synchronization ...\n"],
        [Act.gst_bus_add_watch, Act.g_print "\nStarting playback using NTP-RTCP\n\n"],
        [Act.g_printerr "Failed to set playbin to PLAYING state\n"],
        by simp [hmk, Client.configure], by simp, ?_, ?_⟩
      · unfold Client.main
        simp [h0, hpb, h3, c6, Client.sync_and_start]
      · intro b
        unfold Client.main
        simp [h0, hpb, h3, c6, Client.sync_and_start, Client.make_playbin, Client.configure]
    · refine ⟨[Act.gst_init, Act.g_main_loop_new] ++ Client.make_playbin ce
          ++ Client.configure ce ++ [Act.g_print "Waiting clock synchronization ...\n"],
        [Act.gst_bus_add_watch, Act.g_print "\nStarting playback using NTP-RTCP\n\n"],
        [Act.g_main_loop_run]
          ++ (g_main_loop_run Client.bus_call ce.messages).1
          ++ (if (g_main_loop_run Client.bus_call ce.messages).2 then Client.cleanup else []),
        by simp [hmk, Client.configure], by simp, ?_, ?_⟩
      · unfold Client.main
        simp [h0, hpb, h3, c6, Client.sync_and_start]
      · intro b
        unfold Client.main
        simp [h0, hpb, h3, c6, Client.sync_and_start, Client.make_playbin, Client.configure]

theorem playing_requested_after_sync_and_clock_witness :
    Act.gst_element_set_state GstState.GST_STATE_PLAYING
      ∈ (Play.main Play.unsynced_run).trace ∧
    Act.gst_element_set_state GstState.GST_STATE_PLAYING
      ∈ (Client.main Client.unsynced_run).trace ∧
    (∃ pre mid post, (Play.main Play.unsynced_run).trace
      = pre ++ [Act.gst_clock_wait_for_sync false,
          Act.g_printerr "Warning: Clock sync timeout\n", Act.gst_pipeline_use_clock]
        ++ mid ++ Act.gst_element_set_state GstState.GST_STATE_PLAYING :: post) ∧
    (∃ pre mid post, (Client.main Client.unsynced_run).trace
      = pre ++ [Act.gst_clock_wait_for_sync false,
          Act.g_printerr "Warning: Clock sync timeout\n", Act.gst_pipeline_use_clock]
        ++ mid ++ Act.gst_element_set_state GstState.GST_STATE_PLAYING :: post) := by
  have hp : Act.gst_element_set_state GstState.GST_STATE_PLAYING
      ∈ (Play.main Play.unsynced_run).trace := by
    rw [play_playing_mem_iff]
    simp [Play.unsynced_run, arg, setup_pipeline_all_accepted]
  have hc : Act.gst_element_set_state GstState.GST_STATE_PLAYING
      ∈ (Client.main Client.unsynced_run).trace := by
    rw [client_playing_mem_iff]
    simp [Client.unsynced_run]
  have h := playing_requested_after_sync_and_clock Play.unsynced_run Client.unsynced_run
  obtain ⟨pre, mid, post, _, _, e, _⟩ := h.1 hp
  obtain ⟨pre2, mid2, post2, _, _, e2, _⟩ := h.2 hc
  exact ⟨hp, hc, ⟨pre, mid, post, e⟩, ⟨pre2, mid2, post2, e2⟩⟩

end PocSync
